import Mathlib

/-!
Shallow embedding of the Warp Messenger stateful precompile
(`precompile/warp_messenger.go`) of the subnet-evm repository, together
with the parts of its environment the handlers rely on (gas accounting,
upgradeable config, warp-message codec), which are modelled from the
specification where their source is not part of the analysed slice.

Machine integers (`uint64`, `[32]byte`, byte slices) are modelled as `Nat`
and `List Nat`; external collaborators (RLP decoding, ABI argument
decoding, message parsing, aggregate-signature verification) are
parameters of the handler functions, so theorems quantify over their
possible outcomes.
-/

namespace Warp

/-- Big-endian fixed-width byte encoding of a natural number:
`natToBytesBE k n` is the `k`-byte big-endian encoding of `n % 256^k`. -/
def natToBytesBE : Nat → Nat → List Nat
  | 0, _ => []
  | k + 1, n => natToBytesBE k (n / 256) ++ [n % 256]

/-- Big-endian interpretation of a byte list as a natural number. -/
def bytesToNatBE (bs : List Nat) : Nat :=
  bs.foldl (fun acc b => acc * 256 + b) 0

/-- Number of set bits among the eight bits of a byte. -/
def popCount (b : Nat) : Nat :=
  ((List.range 8).map fun j => b >>> j % 2).sum

/-- Hamming weight of a byte-encoded bit set: total number of set bits,
as computed by `set.BitsFromBytes(...).HammingWeight()` on the signers
byte slice of a bit-set aggregate signature. -/
def hammingWeight (bs : List Nat) : Nat :=
  (bs.map popCount).sum

/-! ## Gas constants (`precompile/warp_messenger.go`, lines 23–27) -/

def GetBlockchainIdGasCost : Nat := 5000

def GetVerifiedWarpMessageGasCost : Nat := 100000

def GetVerifiedWarpMessageGasCostPerAggregatedKey : Nat := 1000

def SendWarpMessageGasCost : Nat := 100000

/-- Quorum numerator for aggregate-signature verification (67%). -/
def WarpQuorumNumerator : Nat := 67

/-- Quorum denominator for aggregate-signature verification. -/
def WarpQuorumDenominator : Nat := 100

/-- The 32-byte event identifier constant `SubmitMessageEventID`
(`precompile/warp_messenger.go`, line 31), used verbatim as the first
log topic by `sendWarpMessage`. -/
def SubmitMessageEventID : Nat :=
  0xda2b1cd3e6664863b4ad90f53a4e14fca9fc00f3f0e01e5c7b236a4355b6591a

/-- Modelled from the spec: the precompile's fixed-width address,
assigned out of band (its concrete value resides in `params.go`, which
is outside the analysed slice). -/
def WarpMessengerAddress : Nat :=
  0x0200000000000000000000000000000000000005

/-- Errors surfaced by the precompile handlers and the predicate. -/
inductive PrecompileError where
  | outOfGas
  | writeProtection
  | abiDecodeError
  | missingStorageSlots
  | rlpDecodeError
  | invalidMessageIndex
  | parseError
  | invalidAggregateSignature
  | codecError
  | missingProposerCtx
  | wrongChainId
  | sigVerifyFailed
  deriving DecidableEq, Repr

/-- Modelled from the spec: the gas accounting primitive
`deduct(remaining, cost) -> remaining' | OutOfGas`; for all
`remaining < cost` the deduction fails (the Go helper `deductGas`
returns `0, vmerrs.ErrOutOfGas`), otherwise the cost is subtracted. -/
def deductGas (remaining cost : Nat) : Except PrecompileError Nat :=
  if remaining < cost then .error .outOfGas else .ok (remaining - cost)

/-! ## Data model -/

/-- The `WarpMessage` struct: four 32-byte identifiers plus a payload. -/
structure WarpMessage where
  originChainId : Nat
  originSenderAddress : Nat
  destinationChainId : Nat
  destinationAddress : Nat
  payload : List Nat
  deriving DecidableEq, Repr

/-- A bit-set aggregate signature: the byte-encoded bit set of the
validators whose signatures were aggregated (`BitSetSignature.Signers`). -/
structure BitSetSignature where
  signers : List Nat
  deriving DecidableEq, Repr

/-- The dynamic type of a parsed message's signature: either the
`*teleporter.BitSetSignature` implementation or some other implementation
of the signature interface (the type assertion in the handler fails). -/
inductive WarpSignature where
  | bitSet (sig : BitSetSignature)
  | other
  deriving DecidableEq, Repr

/-- A parsed signed message (`teleporter.Message`): the fields the
precompile reads are the destination chain id, the payload of the
unsigned message, and the signature. -/
structure SignedMessage where
  destinationChainID : Nat
  payload : List Nat
  signature : WarpSignature
  deriving DecidableEq, Repr

/-- Proposer VM block context: carries the P-Chain height pinning the
validator-set snapshot. -/
structure ProposerVMBlockCtx where
  pChainHeight : Nat
  deriving DecidableEq, Repr

/-- Predicate context: optional proposer VM block context plus the
chain id of the verifying chain (`SnowCtx.ChainID`). -/
structure PredicateContext where
  proposerVMBlockCtx : Option ProposerVMBlockCtx
  chainID : Nat
  deriving DecidableEq, Repr

/-- A log record as produced by `StateDB.AddLog`. -/
structure LogEntry where
  address : Nat
  topics : List Nat
  data : List Nat
  blockNumber : Nat
  deriving DecidableEq, Repr

/-- Result of running a precompile handler: Go handlers return
`(ret, remainingGas, err)`; a successful run also reports the log
records it appended to the state. -/
inductive Outcome (α : Type) where
  | success (output : α) (remainingGas : Nat) (logs : List LogEntry)
  | failure (e : PrecompileError) (remainingGas : Nat)
  deriving DecidableEq, Repr

/-- Output struct of `getVerifiedWarpMessage` before ABI packing. -/
structure GetVerifiedWarpMessageOutput where
  message : WarpMessage
  success : Bool
  deriving DecidableEq, Repr

/-- Input struct of `sendWarpMessage` after ABI unpacking. -/
structure SendWarpMessageInput where
  destinationChainId : Nat
  destinationAddress : Nat
  payload : List Nat
  deriving DecidableEq, Repr

/-! ## Warp message codec -/

/-- Modelled from the spec: the codec's version tag prefixed to every
serialized message. -/
def codecVersion : Nat := 0

/-- Modelled from the spec: the Warp Message Codec serialization —
an explicit version tag prefix followed by the five envelope fields
(origin chain, origin sender, destination chain, destination address,
payload), the payload preceded by its length. -/
def codecMarshalBytes (version : Nat) (m : WarpMessage) : List Nat :=
  natToBytesBE 2 version ++
  (natToBytesBE 32 m.originChainId ++
  (natToBytesBE 32 m.originSenderAddress ++
  (natToBytesBE 32 m.destinationChainId ++
  (natToBytesBE 32 m.destinationAddress ++
  (natToBytesBE 4 m.payload.length ++
  m.payload)))))

/-- Modelled from the spec: `Codec.Marshal` fails when the payload
cannot be represented (its length overflows the length prefix),
otherwise produces the serialized bytes. -/
def codecMarshal (version : Nat) (m : WarpMessage) :
    Except PrecompileError (List Nat) :=
  if m.payload.length < 256 ^ 4 then .ok (codecMarshalBytes version m)
  else .error .codecError

/-- Modelled from the spec: the Warp Message Codec deserialization —
checks the buffer is long enough, reads the version tag, the four
32-byte identifiers and the length-prefixed payload, and requires the
whole buffer to be consumed. -/
def codecUnmarshal (bs : List Nat) : Except PrecompileError WarpMessage :=
  if bs.length < 134 then .error .codecError
  else
    let version := bytesToNatBE (bs.take 2)
    let r1 := bs.drop 2
    let oc := bytesToNatBE (r1.take 32)
    let r2 := r1.drop 32
    let os := bytesToNatBE (r2.take 32)
    let r3 := r2.drop 32
    let dc := bytesToNatBE (r3.take 32)
    let r4 := r3.drop 32
    let da := bytesToNatBE (r4.take 32)
    let r5 := r4.drop 32
    let plen := bytesToNatBE (r5.take 4)
    let payload := r5.drop 4
    if version ≠ codecVersion then .error .codecError
    else if payload.length ≠ plen then .error .codecError
    else .ok ⟨oc, os, dc, da, payload⟩

/-! ## Handlers (`precompile/warp_messenger.go`) -/

/-- The `getBlockchainId` handler (lines 231–247): deducts the fixed
cost, rejects read-only callers, then returns the ABI-packed chain id
of the executing chain. -/
def getBlockchainId (chainID : Nat) (suppliedGas : Nat) (readOnly : Bool) :
    Outcome (List Nat) :=
  match deductGas suppliedGas GetBlockchainIdGasCost with
  | .error e => .failure e 0
  | .ok remainingGas =>
    if readOnly then .failure .writeProtection remainingGas
    else .success (natToBytesBE 32 chainID) remainingGas []

/-- Whether a non-negative ABI `uint256` value is representable as a
signed 64-bit integer (`big.Int.IsInt64` on a non-negative value). -/
def isInt64 (n : Nat) : Bool := n < 2 ^ 63

/-- The `getVerifiedWarpMessage` handler (lines 276–347): deducts the
base cost, rejects read-only callers, ABI-decodes the message index,
fetches the predicate storage slots attached to the transaction's access
list, RLP-decodes them into a list of signed-message blobs, bounds-checks
the index, parses the selected blob, requires a bit-set aggregate
signature, deducts `GetVerifiedWarpMessageGasCost` per signer bit set,
codec-decodes the payload, and returns the message with `success = true`.
External collaborators (RLP decoding, ABI decoding, message parsing) are
passed as parameters; `storageSlots` is `none` when the state has no
predicate storage slots for the precompile address. -/
def getVerifiedWarpMessage
    (storageSlots : Option (List Nat))
    (rlpDecode : List Nat → Except Unit (List (List Nat)))
    (parseMessage : List Nat → Except Unit SignedMessage)
    (decodeInput : Except Unit Nat)
    (suppliedGas : Nat) (readOnly : Bool) :
    Outcome GetVerifiedWarpMessageOutput :=
  match deductGas suppliedGas GetVerifiedWarpMessageGasCost with
  | .error e => .failure e 0
  | .ok remainingGas =>
    if readOnly then .failure .writeProtection remainingGas
    else
      match decodeInput with
      | .error _ => .failure .abiDecodeError remainingGas
      | .ok inputIndex =>
        match storageSlots with
        | none => .failure .missingStorageSlots remainingGas
        | some slots =>
          match rlpDecode slots with
          | .error _ => .failure .rlpDecodeError remainingGas
          | .ok signedMessages =>
            if ¬ isInt64 inputIndex then
              .failure .invalidMessageIndex remainingGas
            else if signedMessages.length ≤ inputIndex then
              .failure .invalidMessageIndex remainingGas
            else
              match parseMessage (signedMessages.getD inputIndex []) with
              | .error _ => .failure .parseError remainingGas
              | .ok message =>
                match message.signature with
                | .other => .failure .invalidAggregateSignature remainingGas
                | .bitSet sig =>
                  let numSigners := hammingWeight sig.signers
                  match deductGas remainingGas
                      (GetVerifiedWarpMessageGasCost * numSigners) with
                  | .error e => .failure e 0
                  | .ok remainingGas2 =>
                    match codecUnmarshal message.payload with
                    | .error e => .failure e remainingGas2
                    | .ok warpMessage =>
                      .success ⟨warpMessage, true⟩ remainingGas2 []

/-- The `sendWarpMessage` handler (lines 363–402): deducts the fixed
cost, rejects read-only callers, ABI-decodes the input, constructs a
`WarpMessage` whose origin fields are the executing chain's id and the
caller's 32-byte hash, codec-serializes it, and appends one log record
addressed to the precompile with topics
`[SubmitMessageEventID, originChainId, destinationChainId]` and the
serialized message as data; returns empty output. -/
def sendWarpMessage (chainID caller blockNumber : Nat)
    (decodeInput : Except Unit SendWarpMessageInput)
    (suppliedGas : Nat) (readOnly : Bool) :
    Outcome (List Nat) :=
  match deductGas suppliedGas SendWarpMessageGasCost with
  | .error e => .failure e 0
  | .ok remainingGas =>
    if readOnly then .failure .writeProtection remainingGas
    else
      match decodeInput with
      | .error _ => .failure .abiDecodeError remainingGas
      | .ok inputStruct =>
        let message : WarpMessage :=
          { originChainId := chainID
            originSenderAddress := caller
            destinationChainId := inputStruct.destinationChainId
            destinationAddress := inputStruct.destinationAddress
            payload := inputStruct.payload }
        match codecMarshal codecVersion message with
        | .error e => .failure e remainingGas
        | .ok data =>
          .success [] remainingGas
            [⟨WarpMessengerAddress,
              [SubmitMessageEventID, message.originChainId,
               message.destinationChainId],
              data, blockNumber⟩]

/-! ## Predicate verification (`verifyPredicate`, lines 165–211) -/

/-- The per-message loop of `verifyPredicate`: parse each blob, fail on
a wrong destination chain id, verify the aggregate signature at the
proposer's P-Chain height with the quorum constants, short-circuiting on
the first failure. -/
def verifyMessages
    (parseMessage : List Nat → Except Unit SignedMessage)
    (verifySig : SignedMessage → Nat → Nat → Nat → Bool)
    (chainID pChainHeight : Nat) :
    List (List Nat) → Except PrecompileError Unit
  | [] => .ok ()
  | messageBytes :: rest =>
    match parseMessage messageBytes with
    | .error _ => .error .parseError
    | .ok message =>
      if message.destinationChainID ≠ chainID then .error .wrongChainId
      else if verifySig message pChainHeight
          WarpQuorumNumerator WarpQuorumDenominator then
        verifyMessages parseMessage verifySig chainID pChainHeight rest
      else .error .sigVerifyFailed

/-- The `verifyPredicate` function: fails without a proposer VM block
context, succeeds on empty storage slots, RLP-decodes the slots into a
list of signed-message blobs (failing the whole predicate on decode
failure), then verifies each message in order. -/
def verifyPredicate
    (rlpDecode : List Nat → Except Unit (List (List Nat)))
    (parseMessage : List Nat → Except Unit SignedMessage)
    (verifySig : SignedMessage → Nat → Nat → Nat → Bool)
    (ctx : PredicateContext) (storageSlots : List Nat) :
    Except PrecompileError Unit :=
  match ctx.proposerVMBlockCtx with
  | none => .error .missingProposerCtx
  | some proposerCtx =>
    if storageSlots.length = 0 then .ok ()
    else
      match rlpDecode storageSlots with
      | .error _ => .error .rlpDecodeError
      | .ok messagesBytes =>
        verifyMessages parseMessage verifySig ctx.chainID
          proposerCtx.pChainHeight messagesBytes

/-- Written from the spec's words (§4.5, step 4): process each blob in
order — parse as SignedMessage, fail if the destination chain identifier
differs from the verifying chain's own identifier, verify the aggregate
signature at the pinned height with quorum 67/100 — failing the whole
predicate immediately at the first failure. -/
def specMessageLoop
    (parseMessage : List Nat → Except Unit SignedMessage)
    (verifySig : SignedMessage → Nat → Nat → Nat → Bool)
    (chainID pChainHeight : Nat) (messagesBytes : List (List Nat)) :
    Except PrecompileError Unit := Id.run do
  for messageBytes in messagesBytes do
    match parseMessage messageBytes with
    | .error _ => return .error .parseError
    | .ok message =>
      if message.destinationChainID ≠ chainID then
        return .error .wrongChainId
      else if ¬ verifySig message pChainHeight 67 100 then
        return .error .sigVerifyFailed
  return .ok ()

/-- Written from the spec's words (§4.5, steps 1–5), for comparison with
`verifyPredicate`: step 1 fails without a proposer block context; step 2
succeeds trivially on an empty payload; step 3 decodes the payload as an
ordered sequence of blobs, decode failure failing the whole predicate;
step 4 processes each blob in order, short-circuiting on the first
failure; step 5 succeeds only if every message verifies. -/
def verifyPredicateSpec
    (rlpDecode : List Nat → Except Unit (List (List Nat)))
    (parseMessage : List Nat → Except Unit SignedMessage)
    (verifySig : SignedMessage → Nat → Nat → Nat → Bool)
    (ctx : PredicateContext) (storageSlots : List Nat) :
    Except PrecompileError Unit :=
  match ctx.proposerVMBlockCtx with
  | none => .error .missingProposerCtx
  | some proposerCtx =>
    if storageSlots = [] then .ok ()
    else
      match rlpDecode storageSlots with
      | .error _ => .error .rlpDecodeError
      | .ok messagesBytes =>
        specMessageLoop parseMessage verifySig ctx.chainID
          proposerCtx.pChainHeight messagesBytes

/-! ## Upgradeable config and equality -/

/-- Modelled from the spec: `UpgradeableConfig` is the timestamp-gated
activation record `{activationTimestamp, disabled}`; the activation
timestamp is a `*big.Int` and may be absent. -/
structure UpgradeableConfig where
  blockTimestamp : Option Int
  disable : Bool
  deriving DecidableEq, Repr

/-- Modelled from the spec: structural equality of two
`UpgradeableConfig` values — equal iff the activation timestamps and the
disabled flags match. -/
def UpgradeableConfig.equal (c other : UpgradeableConfig) : Bool :=
  c.blockTimestamp == other.blockTimestamp && c.disable == other.disable

/-- The Warp Messenger's config embeds `UpgradeableConfig` and adds no
fields of its own. -/
structure WarpMessengerConfig where
  upgradeableConfig : UpgradeableConfig
  deriving DecidableEq, Repr

/-- A `StatefulPrecompileConfig` value as seen by `Equal`: either a
`*WarpMessengerConfig` or a config of some other precompile kind (for
which the type assertion in `Equal` fails). -/
inductive StatefulPrecompileConfig where
  | warpMessenger (c : WarpMessengerConfig)
  | otherKind
  deriving DecidableEq, Repr

/-- `WarpMessengerConfig.Equal` (lines 112–124): typecasts the argument
to `*WarpMessengerConfig` (returning false if it is of another kind) and
compares the embedded `UpgradeableConfig`s. -/
def WarpMessengerConfig.Equal (c : WarpMessengerConfig)
    (s : StatefulPrecompileConfig) : Bool :=
  match s with
  | .warpMessenger other => c.upgradeableConfig.equal other.upgradeableConfig
  | .otherKind => false

/-! ## Keccak-256

The claim about the emitted event topic refers to the Keccak-256 hash of
the event signature string; Keccak-256 is implemented here in full
(state of 25 lanes of 64 bits, 24 rounds, rate 136, multi-rate padding
with domain bit 0x01). -/

/-- Rotate a 64-bit lane left by `n` bits (0 ≤ n < 64). -/
def rotl64 (x n : Nat) : Nat :=
  ((x <<< n) ||| (x >>> (64 - n))) % 2 ^ 64

/-- Lane `(x, y)` of a Keccak state stored as a flat list indexed by
`x + 5 * y`. -/
def lane (A : List Nat) (x y : Nat) : Nat :=
  A.getD (x + 5 * y) 0

/-- Rotation offset table of the rho step, as rows indexed by the lane
x-coordinate; the entry for lane `(x, y)` is row `x`, column `y`. -/
def keccakRotRows : List (List Nat) :=
  [[0, 36, 3, 41, 18],
   [1, 44, 10, 45, 2],
   [62, 6, 43, 15, 61],
   [28, 55, 25, 21, 56],
   [27, 20, 39, 8, 14]]

/-- Rotation offset of the rho step for lane `(x, y)`. -/
def keccakRotOff (x y : Nat) : Nat :=
  (keccakRotRows.getD x []).getD y 0

/-- Round constants of the iota step (written in decimal). -/
def keccakRoundConstants : List Nat :=
  [1, 32898,
   9223372036854808714, 9223372039002292224,
   32907, 2147483649,
   9223372039002292353, 9223372036854808585,
   138, 136,
   2147516425, 2147483658,
   2147516555, 9223372036854775947,
   9223372036854808713, 9223372036854808579,
   9223372036854808578, 9223372036854775936,
   32778, 9223372039002259466,
   9223372039002292353, 9223372036854808704,
   2147483649, 9223372039002292232]

/-- Theta step of the Keccak round function. -/
def keccakTheta (A : List Nat) : List Nat :=
  let C := (List.range 5).map fun x =>
    lane A x 0 ^^^ lane A x 1 ^^^ lane A x 2 ^^^ lane A x 3 ^^^ lane A x 4
  let D := (List.range 5).map fun x =>
    C.getD ((x + 4) % 5) 0 ^^^ rotl64 (C.getD ((x + 1) % 5) 0) 1
  (List.range 25).map fun i => A.getD i 0 ^^^ D.getD (i % 5) 0

/-- Combined rho and pi steps: the output lane at `(x', y')` is the
input lane at `(3 * (y' + 2 * x') % 5, x')` rotated by its offset. -/
def keccakRhoPi (A : List Nat) : List Nat :=
  (List.range 25).map fun i =>
    let xp := i % 5
    let yp := i / 5
    let x := (3 * (yp + 2 * xp)) % 5
    let y := xp
    rotl64 (lane A x y) (keccakRotOff x y)

/-- Chi step of the Keccak round function. -/
def keccakChi (B : List Nat) : List Nat :=
  (List.range 25).map fun i =>
    let x := i % 5
    let y := i / 5
    lane B x y ^^^ ((lane B ((x + 1) % 5) y ^^^ (2 ^ 64 - 1)) &&&
      lane B ((x + 2) % 5) y)

/-- One Keccak round: theta, rho/pi, chi, then iota with constant `rc`. -/
def keccakRound (A : List Nat) (rc : Nat) : List Nat :=
  let B := keccakChi (keccakRhoPi (keccakTheta A))
  B.set 0 (B.getD 0 0 ^^^ rc)

/-- The Keccak-f[1600] permutation: 24 rounds. -/
def keccakF (A : List Nat) : List Nat :=
  keccakRoundConstants.foldl keccakRound A

/-- Multi-rate padding with domain bit 0x01 (original Keccak padding,
as used by Ethereum's Keccak-256), rate 136 bytes. -/
def keccakPad (msg : List Nat) : List Nat :=
  let padlen := 136 - msg.length % 136
  if padlen = 1 then msg ++ [0x81]
  else msg ++ [0x01] ++ List.replicate (padlen - 2) 0 ++ [0x80]

/-- Little-endian interpretation of up to eight bytes as a 64-bit lane. -/
def bytesToLaneLE (bs : List Nat) : Nat :=
  bs.foldr (fun b acc => b + 256 * acc) 0

/-- XOR one 136-byte block into the first 17 lanes of the state. -/
def absorbBlock (A block : List Nat) : List Nat :=
  (List.range 25).map fun i =>
    if i < 17 then A.getD i 0 ^^^ bytesToLaneLE ((block.drop (8 * i)).take 8)
    else A.getD i 0

/-- Absorb `k` consecutive 136-byte blocks of a padded message. -/
def absorbBlocks : Nat → List Nat → List Nat → List Nat
  | 0, A, _ => A
  | k + 1, A, msg =>
    absorbBlocks k (keccakF (absorbBlock A (msg.take 136))) (msg.drop 136)

/-- The eight little-endian bytes of a 64-bit lane. -/
def laneToBytesLE (v : Nat) : List Nat :=
  (List.range 8).map fun i => v >>> (8 * i) % 256

/-- Keccak-256 of a byte sequence: absorb the padded message into an
all-zero state and squeeze the first 32 bytes. -/
def keccak256 (msg : List Nat) : List Nat :=
  let padded := keccakPad msg
  let A := absorbBlocks (padded.length / 136) (List.replicate 25 0) padded
  ((A.take 4).map laneToBytesLE).flatten

/-- The ASCII bytes of the canonical event signature string
SendWarpMessage(bytes32,bytes32,bytes32,bytes). -/
def sendWarpMessageEventSignature : List Nat :=
  [83, 101, 110, 100, 87, 97, 114, 112, 77, 101, 115, 115, 97, 103, 101,
   40, 98, 121, 116, 101, 115, 51, 50, 44, 98, 121, 116, 101, 115, 51,
   50, 44, 98, 121, 116, 101, 115, 51, 50, 44, 98, 121, 116, 101, 115,
   41]

/-! ## Supporting lemmas -/

theorem natToBytesBE_length (k n : Nat) : (natToBytesBE k n).length = k := by
  induction k generalizing n with
  | zero => rfl
  | succ k ih => simp [natToBytesBE, ih]

theorem bytesToNatBE_append_singleton (xs : List Nat) (b : Nat) :
    bytesToNatBE (xs ++ [b]) = bytesToNatBE xs * 256 + b := by
  simp [bytesToNatBE, List.foldl_append]

theorem bytesToNatBE_natToBytesBE (k n : Nat) :
    bytesToNatBE (natToBytesBE k n) = n % 256 ^ k := by
  induction k generalizing n with
  | zero => simp [natToBytesBE, bytesToNatBE, Nat.mod_one]
  | succ k ih =>
    rw [natToBytesBE, bytesToNatBE_append_singleton, ih]
    have h1 : n % (256 * 256 ^ k) = n % 256 + 256 * (n / 256 % 256 ^ k) :=
      Nat.mod_mul
    have h2 : (256 : Nat) ^ (k + 1) = 256 * 256 ^ k := by
      rw [Nat.pow_succ, Nat.mul_comm]
    rw [h2, h1]
    omega

/-- Unrolling the spec's per-message loop by one message. -/
theorem specMessageLoop_cons
    (parseMessage : List Nat → Except Unit SignedMessage)
    (verifySig : SignedMessage → Nat → Nat → Nat → Bool)
    (chainID pChainHeight : Nat) (mb : List Nat) (rest : List (List Nat)) :
    specMessageLoop parseMessage verifySig chainID pChainHeight (mb :: rest) =
    (match parseMessage mb with
     | .error _ => .error .parseError
     | .ok message =>
       if message.destinationChainID ≠ chainID then .error .wrongChainId
       else if ¬ verifySig message pChainHeight 67 100 then
         .error .sigVerifyFailed
       else specMessageLoop parseMessage verifySig chainID pChainHeight
         rest) := by
  simp only [specMessageLoop, Id.run, List.forIn_cons]
  cases hp : parseMessage mb with
  | error e => rfl
  | ok message =>
    by_cases hm : message.destinationChainID = chainID
    · by_cases hv : verifySig message pChainHeight 67 100
      · simp [hm, hv]
      · simp [hm, hv]
    · simp [hm]

theorem verifyMessages_eq_specMessageLoop
    (parseMessage : List Nat → Except Unit SignedMessage)
    (verifySig : SignedMessage → Nat → Nat → Nat → Bool)
    (chainID pChainHeight : Nat) (l : List (List Nat)) :
    verifyMessages parseMessage verifySig chainID pChainHeight l =
    specMessageLoop parseMessage verifySig chainID pChainHeight l := by
  induction l with
  | nil => rfl
  | cons mb rest ih =>
    rw [specMessageLoop_cons, verifyMessages]
    cases hp : parseMessage mb with
    | error e => rfl
    | ok message =>
      by_cases hm : message.destinationChainID = chainID
      · by_cases hv : verifySig message pChainHeight 67 100
        · simp [WarpQuorumNumerator, WarpQuorumDenominator, hm, hv, ih]
        · simp [WarpQuorumNumerator, WarpQuorumDenominator, hm, hv]
      · simp [hm]

theorem take_append_len (xs ys : List Nat) (k : Nat) (h : xs.length = k) :
    (xs ++ ys).take k = xs := List.take_left' h

theorem drop_append_len (xs ys : List Nat) (k : Nat) (h : xs.length = k) :
    (xs ++ ys).drop k = ys := List.drop_left' h

/-- Round trip of the modelled codec: unmarshalling a marshalled message
recovers the message, provided its fields are representable. -/
theorem codecUnmarshal_marshalBytes (m : WarpMessage)
    (h1 : m.originChainId < 256 ^ 32) (h2 : m.originSenderAddress < 256 ^ 32)
    (h3 : m.destinationChainId < 256 ^ 32)
    (h4 : m.destinationAddress < 256 ^ 32)
    (h5 : m.payload.length < 256 ^ 4) :
    codecUnmarshal (codecMarshalBytes codecVersion m) = .ok m := by
  obtain ⟨oc, os, dc, da, p⟩ := m
  simp only [codecMarshalBytes] at *
  have hfalse : ¬ ((natToBytesBE 2 codecVersion ++ (natToBytesBE 32 oc ++
      (natToBytesBE 32 os ++ (natToBytesBE 32 dc ++ (natToBytesBE 32 da ++
      (natToBytesBE 4 p.length ++ p)))))).length < 134) := by
    simp only [List.length_append, natToBytesBE_length]
    omega
  simp only [codecUnmarshal]
  rw [if_neg hfalse]
  rw [take_append_len _ _ _ (natToBytesBE_length 2 _),
      drop_append_len _ _ _ (natToBytesBE_length 2 _)]
  rw [take_append_len _ _ _ (natToBytesBE_length 32 _),
      drop_append_len _ _ _ (natToBytesBE_length 32 _)]
  rw [take_append_len _ _ _ (natToBytesBE_length 32 _),
      drop_append_len _ _ _ (natToBytesBE_length 32 _)]
  rw [take_append_len _ _ _ (natToBytesBE_length 32 _),
      drop_append_len _ _ _ (natToBytesBE_length 32 _)]
  rw [take_append_len _ _ _ (natToBytesBE_length 32 _),
      drop_append_len _ _ _ (natToBytesBE_length 32 _)]
  rw [take_append_len _ _ _ (natToBytesBE_length 4 _),
      drop_append_len _ _ _ (natToBytesBE_length 4 _)]
  rw [bytesToNatBE_natToBytesBE, bytesToNatBE_natToBytesBE,
      bytesToNatBE_natToBytesBE, bytesToNatBE_natToBytesBE,
      bytesToNatBE_natToBytesBE, bytesToNatBE_natToBytesBE]
  rw [Nat.mod_eq_of_lt h1, Nat.mod_eq_of_lt h2, Nat.mod_eq_of_lt h3,
      Nat.mod_eq_of_lt h4, Nat.mod_eq_of_lt h5]
  simp [codecVersion]

/-! ## Claim theorems -/

/-- C2: the claim says `getBlockchainId` with sufficient gas succeeds
regardless of the `readOnly` flag and never fails with a
write-protection error; but the handler (lines 236–238), contradicting
the `view` state mutability its own ABI declares for the method, returns
a write-protection error for a read-only caller; evaluated at
`suppliedGas = 5000`, `readOnly = true`. -/
theorem getBlockchainId_rejects_readOnly :
    getBlockchainId 7 5000 true = .failure .writeProtection 0 := by decide

/-- C3: `verifyPredicate` coincides with the algorithm as restated from
the spec, for every choice of RLP decoder, message parser,
aggregate-signature verifier, predicate context and storage-slot
payload: fail without a proposer VM block context; succeed immediately
on empty storage slots; otherwise decode, failing the whole predicate on
decode failure; then for each blob in order parse, check the destination
chain id, and verify the aggregate signature at the proposer's P-Chain
height with quorum 67/100, short-circuiting on the first failure. -/
theorem verifyPredicate_follows_spec_algorithm
    (rlpDecode : List Nat → Except Unit (List (List Nat)))
    (parseMessage : List Nat → Except Unit SignedMessage)
    (verifySig : SignedMessage → Nat → Nat → Nat → Bool)
    (ctx : PredicateContext) (storageSlots : List Nat) :
    verifyPredicate rlpDecode parseMessage verifySig ctx storageSlots =
    verifyPredicateSpec rlpDecode parseMessage verifySig ctx
      storageSlots := by
  unfold verifyPredicate verifyPredicateSpec
  cases ctx.proposerVMBlockCtx with
  | none => rfl
  | some proposerCtx =>
    simp only [List.length_eq_zero]
    by_cases hempty : storageSlots = []
    · simp [hempty]
    · simp only [hempty, if_false]
      cases rlpDecode storageSlots with
      | error e => rfl
      | ok messagesBytes =>
        exact verifyMessages_eq_specMessageLoop _ _ _ _ _

/-- C8: `WarpMessengerConfig.Equal` returns true exactly when the other
config is of the Warp Messenger kind and agrees on the activation
timestamp and the disabled flag; configs of a different precompile kind
are unequal. -/
theorem warpMessengerConfig_equal_iff (c : WarpMessengerConfig)
    (s : StatefulPrecompileConfig) :
    c.Equal s = true ↔
      ∃ other : WarpMessengerConfig, s = .warpMessenger other ∧
        other.upgradeableConfig.blockTimestamp =
          c.upgradeableConfig.blockTimestamp ∧
        other.upgradeableConfig.disable = c.upgradeableConfig.disable := by
  cases s with
  | warpMessenger other =>
    simp only [WarpMessengerConfig.Equal, UpgradeableConfig.equal,
      Bool.and_eq_true, beq_iff_eq]
    constructor
    · rintro ⟨h1, h2⟩
      exact ⟨other, rfl, h1.symm, h2.symm⟩
    · rintro ⟨o, ho, h1, h2⟩
      have hoo : other = o := by injection ho
      subst hoo
      exact ⟨h1.symm, h2.symm⟩
  | otherKind => simp [WarpMessengerConfig.Equal]

/-- C6: when the ABI-decoded message index is out of range (at least the
number of predicate-verified messages) or not representable as a signed
64-bit integer, `getVerifiedWarpMessage` fails with the invalid-message-
index error, returning the gas remaining after the base deduction. -/
theorem getVerifiedWarpMessage_invalid_index (slots : List Nat)
    (rlpDecode : List Nat → Except Unit (List (List Nat)))
    (parseMessage : List Nat → Except Unit SignedMessage)
    (i g : Nat) (msgs : List (List Nat))
    (hg : GetVerifiedWarpMessageGasCost ≤ g)
    (hrlp : rlpDecode slots = .ok msgs)
    (hbad : msgs.length ≤ i ∨ 2 ^ 63 ≤ i) :
    getVerifiedWarpMessage (some slots) rlpDecode parseMessage (.ok i) g
      false = .failure .invalidMessageIndex
        (g - GetVerifiedWarpMessageGasCost) := by
  unfold getVerifiedWarpMessage
  by_cases hi : i < 2 ^ 63
  · have hii : isInt64 i = true := by
      simp only [isInt64, decide_eq_true_eq]
      omega
    have hlen : msgs.length ≤ i := by
      rcases hbad with h | h
      · exact h
      · omega
    simp [deductGas, Nat.not_lt.mpr hg, hrlp, hii, hlen]
  · have hii : isInt64 i = false := by
      simp only [isInt64, decide_eq_false_iff_not]
      omega
    simp [deductGas, Nat.not_lt.mpr hg, hrlp, hii]

/-- C10: when the selected message parses but its signature is not a
bit-set aggregate signature, `getVerifiedWarpMessage` fails with the
invalid-aggregate-signature error before any per-signer gas is charged,
returning the gas remaining after the base deduction. -/
theorem getVerifiedWarpMessage_invalid_aggregate (slots : List Nat)
    (rlpDecode : List Nat → Except Unit (List (List Nat)))
    (parseMessage : List Nat → Except Unit SignedMessage)
    (i g : Nat) (msgs : List (List Nat)) (msg : SignedMessage)
    (hg : GetVerifiedWarpMessageGasCost ≤ g)
    (hrlp : rlpDecode slots = .ok msgs)
    (hi : i < 2 ^ 63) (hlen : i < msgs.length)
    (hparse : parseMessage (msgs.getD i []) = .ok msg)
    (hsig : msg.signature = .other) :
    getVerifiedWarpMessage (some slots) rlpDecode parseMessage (.ok i) g
      false = .failure .invalidAggregateSignature
        (g - GetVerifiedWarpMessageGasCost) := by
  have hii : isInt64 i = true := by
    simp only [isInt64, decide_eq_true_eq]
    omega
  rw [List.getD_eq_getElem?_getD] at hparse
  unfold getVerifiedWarpMessage
  simp [deductGas, Nat.not_lt.mpr hg, hrlp, hii, Nat.not_le.mpr hlen,
    hparse, hsig]

/-- C9: the execution path of `getVerifiedWarpMessage` performs no
re-verification: for a valid index whose blob parses with a bit-set
aggregate signature and a codec-decodable payload, and sufficient gas,
the call returns the message with `success = true` — even when the
decoded message's destination chain id differs from an arbitrary local
chain id, which does not even occur among the handler's inputs; no
destination-chain check and no signature verification happens. -/
theorem getVerifiedWarpMessage_no_reverification (localChainID : Nat)
    (slots : List Nat)
    (rlpDecode : List Nat → Except Unit (List (List Nat)))
    (parseMessage : List Nat → Except Unit SignedMessage)
    (i g : Nat) (msgs : List (List Nat)) (msg : SignedMessage)
    (sig : BitSetSignature) (wm : WarpMessage)
    (hg : GetVerifiedWarpMessageGasCost ≤ g)
    (hrlp : rlpDecode slots = .ok msgs)
    (hi : i < 2 ^ 63) (hlen : i < msgs.length)
    (hparse : parseMessage (msgs.getD i []) = .ok msg)
    (hsig : msg.signature = .bitSet sig)
    (hcodec : codecUnmarshal msg.payload = .ok wm)
    (hg2 : GetVerifiedWarpMessageGasCost * hammingWeight sig.signers ≤
      g - GetVerifiedWarpMessageGasCost)
    (hdiff : wm.destinationChainId ≠ localChainID) :
    getVerifiedWarpMessage (some slots) rlpDecode parseMessage (.ok i) g
      false = .success ⟨wm, true⟩
        (g - GetVerifiedWarpMessageGasCost -
          GetVerifiedWarpMessageGasCost * hammingWeight sig.signers) [] := by
  have hii : isInt64 i = true := by
    simp only [isInt64, decide_eq_true_eq]
    omega
  rw [List.getD_eq_getElem?_getD] at hparse
  unfold getVerifiedWarpMessage
  simp [deductGas, Nat.not_lt.mpr hg, hrlp, hii, Nat.not_le.mpr hlen,
    hparse, hsig, Nat.not_lt.mpr hg2, hcodec]

/-- C5: whenever remaining gas is below the cost to be deducted, the
deduction and the enclosing handler fail with the out-of-gas error and
zero remaining gas — never a negative or wrapped-around value — and a
failing run appends no log records: the gas primitive itself, the three
handlers at their base deduction, and `getVerifiedWarpMessage` at its
per-signer deduction. -/
theorem gas_exhaustion_returns_zero :
    (∀ r c : Nat, r < c → deductGas r c = .error .outOfGas)
    ∧ (∀ chainID g : Nat, ∀ ro : Bool, g < GetBlockchainIdGasCost →
        getBlockchainId chainID g ro = .failure .outOfGas 0)
    ∧ (∀ slots rlpDecode parseMessage decodeInput, ∀ g : Nat, ∀ ro : Bool,
        g < GetVerifiedWarpMessageGasCost →
        getVerifiedWarpMessage slots rlpDecode parseMessage decodeInput g
          ro = .failure .outOfGas 0)
    ∧ (∀ chainID caller blockNumber decodeInput, ∀ g : Nat, ∀ ro : Bool,
        g < SendWarpMessageGasCost →
        sendWarpMessage chainID caller blockNumber decodeInput g ro =
          .failure .outOfGas 0)
    ∧ (∀ slots rlpDecode parseMessage, ∀ i g : Nat,
        ∀ msgs : List (List Nat), ∀ msg : SignedMessage,
        ∀ sig : BitSetSignature,
        GetVerifiedWarpMessageGasCost ≤ g →
        rlpDecode slots = .ok msgs → i < 2 ^ 63 → i < msgs.length →
        parseMessage (msgs.getD i []) = .ok msg →
        msg.signature = .bitSet sig →
        g - GetVerifiedWarpMessageGasCost <
          GetVerifiedWarpMessageGasCost * hammingWeight sig.signers →
        getVerifiedWarpMessage (some slots) rlpDecode parseMessage (.ok i)
          g false = .failure .outOfGas 0) := by
  refine ⟨?_, ?_, ?_, ?_, ?_⟩
  · intro r c h
    simp [deductGas, h]
  · intro chainID g ro h
    unfold getBlockchainId
    simp [deductGas, h]
  · intro slots rlpDecode parseMessage decodeInput g ro h
    unfold getVerifiedWarpMessage
    simp [deductGas, h]
  · intro chainID caller blockNumber decodeInput g ro h
    unfold sendWarpMessage
    simp [deductGas, h]
  · intro slots rlpDecode parseMessage i g msgs msg sig hg hrlp hi hlen
      hparse hsig h2
    have hii : isInt64 i = true := by
      simp only [isInt64, decide_eq_true_eq]
      omega
    rw [List.getD_eq_getElem?_getD] at hparse
    unfold getVerifiedWarpMessage
    simp [deductGas, Nat.not_lt.mpr hg, hrlp, hii, Nat.not_le.mpr hlen,
      hparse, hsig, h2]

/-- Witness for the gas-exhaustion theorem: each conjunct applied at a
concrete input. -/
theorem gas_exhaustion_returns_zero_witness :
    deductGas 3 5 = .error .outOfGas
    ∧ getBlockchainId 7 4999 false = .failure .outOfGas 0
    ∧ getVerifiedWarpMessage none (fun _ => .ok []) (fun _ => .error ())
        (.ok 0) 99999 false = .failure .outOfGas 0
    ∧ sendWarpMessage 1 2 3 (.error ()) 99999 false = .failure .outOfGas 0
    ∧ getVerifiedWarpMessage (some [0]) (fun _ => .ok [[42]])
        (fun _ => .ok ⟨3, [], .bitSet ⟨[1]⟩⟩) (.ok 0) 150000 false =
        .failure .outOfGas 0 :=
  ⟨gas_exhaustion_returns_zero.1 3 5 (by decide),
   gas_exhaustion_returns_zero.2.1 7 4999 false (by decide),
   gas_exhaustion_returns_zero.2.2.1 none (fun _ => .ok [])
     (fun _ => .error ()) (.ok 0) 99999 false (by decide),
   gas_exhaustion_returns_zero.2.2.2.1 1 2 3 (.error ()) 99999 false
     (by decide),
   gas_exhaustion_returns_zero.2.2.2.2 [0] (fun _ => .ok [[42]])
     (fun _ => .ok ⟨3, [], .bitSet ⟨[1]⟩⟩) 0 150000 [[42]]
     ⟨3, [], .bitSet ⟨[1]⟩⟩ ⟨[1]⟩ (by decide) rfl (by decide) (by decide)
     rfl rfl (by decide)⟩

/-- C7: for every ABI-decodable input, a successful `sendWarpMessage`
emits a log whose data codec-decodes back to a `WarpMessage` whose
destination chain id, destination address and payload equal the inputs
and whose origin fields are the executing chain's id and the caller. -/
theorem sendWarpMessage_roundtrip (chainID caller blockNumber g : Nat)
    (inp : SendWarpMessageInput)
    (h1 : chainID < 256 ^ 32) (h2 : caller < 256 ^ 32)
    (h3 : inp.destinationChainId < 256 ^ 32)
    (h4 : inp.destinationAddress < 256 ^ 32)
    (h5 : inp.payload.length < 256 ^ 4)
    (hg : SendWarpMessageGasCost ≤ g) :
    sendWarpMessage chainID caller blockNumber (.ok inp) g false
      = .success [] (g - SendWarpMessageGasCost)
          [⟨WarpMessengerAddress,
            [SubmitMessageEventID, chainID, inp.destinationChainId],
            codecMarshalBytes codecVersion
              ⟨chainID, caller, inp.destinationChainId,
               inp.destinationAddress, inp.payload⟩, blockNumber⟩]
    ∧ codecUnmarshal (codecMarshalBytes codecVersion
        ⟨chainID, caller, inp.destinationChainId, inp.destinationAddress,
         inp.payload⟩)
      = .ok ⟨chainID, caller, inp.destinationChainId,
             inp.destinationAddress, inp.payload⟩ := by
  constructor
  · have h5n : inp.payload.length < 4294967296 := by simpa using h5
    unfold sendWarpMessage
    simp [deductGas, Nat.not_lt.mpr hg, codecMarshal, h5n]
  · exact codecUnmarshal_marshalBytes _ h1 h2 h3 h4 h5

/-- Witness for the round-trip theorem at a concrete input. -/
theorem sendWarpMessage_roundtrip_witness :
    sendWarpMessage 7 9 0 (.ok ⟨1, 2, [3]⟩) 200000 false
      = .success [] (200000 - SendWarpMessageGasCost)
          [⟨WarpMessengerAddress, [SubmitMessageEventID, 7, 1],
            codecMarshalBytes codecVersion ⟨7, 9, 1, 2, [3]⟩, 0⟩]
    ∧ codecUnmarshal (codecMarshalBytes codecVersion ⟨7, 9, 1, 2, [3]⟩)
      = .ok ⟨7, 9, 1, 2, [3]⟩ :=
  sendWarpMessage_roundtrip 7 9 0 200000 ⟨1, 2, [3]⟩ (by decide)
    (by decide) (by decide) (by decide) (by decide) (by decide)

set_option maxRecDepth 10000 in
/-- C1: the claim says a successful `getVerifiedWarpMessage` leaves
`suppliedGas - 100000 - 1000 × signerCount`; but the handler (line 325)
charges `GetVerifiedWarpMessageGasCost` (100,000) per signer instead of
the declared `GetVerifiedWarpMessageGasCostPerAggregatedKey` (1,000),
contradicting its own per-aggregated-key constant: at
`suppliedGas = 201000` with one signer bit set the call succeeds with
1,000 gas remaining where the claim requires 100,000. -/
theorem getVerifiedWarpMessage_per_signer_charge_divergence :
    getVerifiedWarpMessage (some [0]) (fun _ => .ok [[42]])
      (fun _ => .ok ⟨3, codecMarshalBytes codecVersion ⟨1, 2, 3, 4, [5]⟩,
        .bitSet ⟨[1]⟩⟩)
      (.ok 0) 201000 false
      = .success ⟨⟨1, 2, 3, 4, [5]⟩, true⟩ 1000 []
    ∧ (201000 : Nat) - GetVerifiedWarpMessageGasCost -
        GetVerifiedWarpMessageGasCostPerAggregatedKey * 1 = 100000
    ∧ (1000 : Nat) ≠ 100000 := by
  refine ⟨by decide, by decide, by decide⟩

set_option maxRecDepth 10000 in
/-- Sanity vector for the Keccak-256 implementation: the hash of the
empty message matches the published Keccak-256 test vector. -/
theorem keccak256_empty_vector :
    keccak256 [] =
    [197, 210, 70, 1, 134, 247, 35, 60, 146, 126, 125, 178, 220, 199, 3,
     192, 229, 0, 182, 83, 202, 130, 39, 59, 123, 250, 216, 4, 93, 133,
     164, 112] := by decide

set_option maxRecDepth 10000 in
/-- C4 counterexample: a successful `sendWarpMessage` call whose single
emitted log carries, as its first topic, the fixed constant
`SubmitMessageEventID`, which is not the Keccak-256 hash of the
signature string SendWarpMessage(bytes32,bytes32,bytes32,bytes) the
claim requires. -/
theorem sendWarpMessage_topic_ne_event_signature_hash :
    sendWarpMessage 7 9 0 (.ok ⟨1, 2, [3]⟩) 200000 false
      = .success [] 100000
          [⟨WarpMessengerAddress, [SubmitMessageEventID, 7, 1],
            codecMarshalBytes codecVersion ⟨7, 9, 1, 2, [3]⟩, 0⟩]
    ∧ SubmitMessageEventID ≠
        bytesToNatBE (keccak256 sendWarpMessageEventSignature) := by
  refine ⟨by decide, by decide⟩

/-- C4 (amended): every successful call to `sendWarpMessage` emits
exactly one log addressed to the precompile whose topics are the fixed
constant `SubmitMessageEventID`, the origin chain id and the destination
chain id, and whose data is the codec-serialized `WarpMessage`; and no
call whose input fails to ABI-decode succeeds. -/
theorem sendWarpMessage_emits_single_submit_log :
    (∀ chainID caller blockNumber : Nat, ∀ inp : SendWarpMessageInput,
      ∀ g : Nat, ∀ ro : Bool, ∀ out : List Nat, ∀ rem : Nat,
      ∀ logs : List LogEntry,
      sendWarpMessage chainID caller blockNumber (.ok inp) g ro =
        .success out rem logs →
      out = [] ∧ logs = [⟨WarpMessengerAddress,
        [SubmitMessageEventID, chainID, inp.destinationChainId],
        codecMarshalBytes codecVersion
          ⟨chainID, caller, inp.destinationChainId,
           inp.destinationAddress, inp.payload⟩, blockNumber⟩])
    ∧ (∀ chainID caller blockNumber : Nat, ∀ e : Unit, ∀ g : Nat,
      ∀ ro : Bool, ∀ out : List Nat, ∀ rem : Nat, ∀ logs : List LogEntry,
      sendWarpMessage chainID caller blockNumber (.error e) g ro ≠
        .success out rem logs) := by
  constructor
  · intro chainID caller blockNumber inp g ro out rem logs h
    unfold sendWarpMessage at h
    by_cases hg : g < SendWarpMessageGasCost
    · simp [deductGas, hg] at h
    · cases ro with
      | true => simp [deductGas, hg] at h
      | false =>
        by_cases hp : inp.payload.length < 256 ^ 4
        · have hpn : inp.payload.length < 4294967296 := by simpa using hp
          simp [deductGas, hg, codecMarshal, hpn] at h
          exact ⟨h.1, h.2.2.symm⟩
        · have hpn : ¬ inp.payload.length < 4294967296 := by simpa using hp
          simp [deductGas, hg, codecMarshal, hpn] at h
  · intro chainID caller blockNumber e g ro out rem logs h
    unfold sendWarpMessage at h
    by_cases hg : g < SendWarpMessageGasCost
    · simp [deductGas, hg] at h
    · cases ro <;> simp [deductGas, hg] at h

/-- Witness for the amended C4 theorem at a concrete input. -/
theorem sendWarpMessage_emits_single_submit_log_witness :
    ([] : List Nat) = []
    ∧ [(⟨WarpMessengerAddress, [SubmitMessageEventID, 7, 1],
        codecMarshalBytes codecVersion ⟨7, 9, 1, 2, [3]⟩, 0⟩ : LogEntry)] =
      [⟨WarpMessengerAddress, [SubmitMessageEventID, 7, 1],
        codecMarshalBytes codecVersion ⟨7, 9, 1, 2, [3]⟩, 0⟩] :=
  sendWarpMessage_emits_single_submit_log.1 7 9 0 ⟨1, 2, [3]⟩ 200000 false
    [] 100000
    [⟨WarpMessengerAddress, [SubmitMessageEventID, 7, 1],
      codecMarshalBytes codecVersion ⟨7, 9, 1, 2, [3]⟩, 0⟩] (by decide)

/-- Witness for the invalid-index theorem at a concrete input. -/
theorem getVerifiedWarpMessage_invalid_index_witness :
    getVerifiedWarpMessage (some [0]) (fun _ => .ok [])
      (fun _ => .error ()) (.ok 0) 100000 false =
      .failure .invalidMessageIndex
        (100000 - GetVerifiedWarpMessageGasCost) :=
  getVerifiedWarpMessage_invalid_index [0] (fun _ => .ok [])
    (fun _ => .error ()) 0 100000 [] (by decide) rfl (Or.inl (by decide))

/-- Witness for the invalid-aggregate-signature theorem at a concrete
input. -/
theorem getVerifiedWarpMessage_invalid_aggregate_witness :
    getVerifiedWarpMessage (some [0]) (fun _ => .ok [[42]])
      (fun _ => .ok ⟨3, [], .other⟩) (.ok 0) 100000 false =
      .failure .invalidAggregateSignature
        (100000 - GetVerifiedWarpMessageGasCost) :=
  getVerifiedWarpMessage_invalid_aggregate [0] (fun _ => .ok [[42]])
    (fun _ => .ok ⟨3, [], .other⟩) 0 100000 [[42]] ⟨3, [], .other⟩
    (by decide) rfl (by decide) (by decide) rfl rfl

set_option maxRecDepth 10000 in
/-- Witness for the no-re-verification theorem at a concrete input whose
decoded destination chain id (3) differs from the local chain id (999). -/
theorem getVerifiedWarpMessage_no_reverification_witness :
    getVerifiedWarpMessage (some [0]) (fun _ => .ok [[42]])
      (fun _ => .ok ⟨3, codecMarshalBytes codecVersion ⟨1, 2, 3, 4, [5]⟩,
        .bitSet ⟨[1]⟩⟩)
      (.ok 0) 201000 false
      = .success ⟨⟨1, 2, 3, 4, [5]⟩, true⟩
          (201000 - GetVerifiedWarpMessageGasCost -
            GetVerifiedWarpMessageGasCost * hammingWeight [1]) [] :=
  getVerifiedWarpMessage_no_reverification 999 [0] (fun _ => .ok [[42]])
    (fun _ => .ok ⟨3, codecMarshalBytes codecVersion ⟨1, 2, 3, 4, [5]⟩,
      .bitSet ⟨[1]⟩⟩)
    0 201000 [[42]]
    ⟨3, codecMarshalBytes codecVersion ⟨1, 2, 3, 4, [5]⟩, .bitSet ⟨[1]⟩⟩
    ⟨[1]⟩ ⟨1, 2, 3, 4, [5]⟩
    (by decide) rfl (by decide) (by decide) rfl rfl
    (codecUnmarshal_marshalBytes ⟨1, 2, 3, 4, [5]⟩ (by decide) (by decide)
      (by decide) (by decide) (by decide))
    (by decide) (by decide)

end Warp
